import Mathlib

/-!
Verification development for the Webex XSI call-block service.

The definitions below are a shallow embedding of the Python source
(`app/call_monitor.py`, `app/funcs.py`, `app/routes.py`,
`app/database/crud.py`).  Raw XSI event payloads are loosely structured
nested dictionaries, modelled by the `PyVal` type; dictionary navigation
that can raise in Python (calling `.get` on a non-dict, `.lower()` on a
non-string, using an unhashable key) is modelled with `Except`.
-/

namespace CallBlock

/-- Model of the loosely structured Python values that appear in a raw
XSI event payload: `None`, strings, dicts and lists. -/
inductive PyVal : Type where
  | vnone : PyVal
  | vstr (s : String) : PyVal
  | vdict (fields : List (String × PyVal)) : PyVal
  | vlist (items : List PyVal) : PyVal

/-- Python truthiness for the modelled values: `None` is falsy, strings,
dicts and lists are truthy when nonempty. -/
def truthy : PyVal → Bool
  | .vnone => false
  | .vstr s => !(s == "")
  | .vdict fields => !fields.isEmpty
  | .vlist items => !items.isEmpty

/-- Python `==` between a value and a string literal: true only for an
equal string (comparing a dict or `None` with a string is `False`). -/
def pyStrEq : PyVal → String → Bool
  | .vstr s, t => s == t
  | _, _ => false

/-- First-match lookup in a dict's field list (Python dict keys are
unique, so first match is the match). -/
def dictFind : List (String × PyVal) → String → Option PyVal
  | [], _ => none
  | p :: rest, k => if p.1 == k then some p.2 else dictFind rest k

/-- Embedding of Python `d.get(key, default)`: defined only when the
receiver is a dict; calling `.get` on `None`, a string or a list raises
`AttributeError`, modelled as `Except.error`. -/
def pyGet : PyVal → String → PyVal → Except Unit PyVal
  | .vdict fields, k, dflt => .ok ((dictFind fields k).getD dflt)
  | _, _, _ => .error ()

/-- Embedding of Python `s.lower()`: raises unless the receiver is a
string. -/
def pyLower : PyVal → Except Unit String
  | .vstr s => .ok s.toLower
  | _ => .error ()

/-- Normalized event record built by `CallMonitor.extract_event_details`
(`call_monitor.py` lines 133-138): the four fields of the returned dict.
Each field keeps the raw `PyVal` found under the corresponding key (a
missing key yields the `.get` default: `\x7b\x7d` for the type, user and
target and the empty string for the call id). -/
structure EventDetails where
  event_type : PyVal
  call_id : PyVal
  user_id : PyVal
  target_id : PyVal

/-- Body of the `try` block of `extract_event_details`
(`call_monitor.py` lines 122-141), navigating the nested payload in
source order.  Any step that would raise in Python is an `Except.error`.
The remote-party name and userDN/address lookups are computed (they can
raise, which matters) even though they are not part of the returned
record. -/
def extract_event_details_attempt (event : PyVal) : Except Unit EventDetails := do
  let ev ← pyGet event "xsi:Event" (.vdict [])
  let event_data ← pyGet ev "xsi:eventData" (.vdict [])
  let event_type ← pyGet event_data "@xsi1:type" (.vdict [])
  let call_info ← pyGet event_data "xsi:call" (.vdict [])
  let xsitargetId ← pyGet ev "xsi:targetId" (.vdict [])
  let call_id ← pyGet call_info "xsi:callId" (.vstr "")
  let remote_party_info ← pyGet call_info "xsi:remoteParty" (.vdict [])
  let userId ← pyGet remote_party_info "xsi:userId" (.vdict [])
  let nameVal ← pyGet remote_party_info "xsi:name" (.vstr "")
  let _remote_party_name ← pyLower nameVal
  let userDNval ← pyGet remote_party_info "xsi:userDN" (.vdict [])
  let userDNtext ← pyGet userDNval "#text" (.vstr "")
  let _userDN ←
    if truthy userDNtext then pure userDNtext
    else do
      let addrVal ← pyGet remote_party_info "xsi:address" (.vdict [])
      pyGet addrVal "#text" (.vstr "")
  pure (EventDetails.mk event_type call_id userId xsitargetId)

/-- `CallMonitor.extract_event_details` (`call_monitor.py` lines
115-144): the `try` body on success, and the caught-exception path
returning the empty dict, modelled as `none`. -/
def extract_event_details (event : PyVal) : Option EventDetails :=
  match extract_event_details_attempt event with
  | .ok d => some d
  | .error _ => none

/-- One active call held by a user's XSI session handle; `hangup_ok`
records whether `call.hangup()` succeeds or raises. -/
structure XsiCall where
  id : String
  hangup_ok : Bool

/-- A user's XSI session handle: `calls_ok` records whether enumerating
`xsi_instance.calls` succeeds, `calls` the active calls it yields. -/
structure XsiInstance where
  calls_ok : Bool
  calls : List XsiCall

/-- One value of `CallMonitor.xsi_user_map` (`call_monitor.py` lines
102-110): the per-user directory entry stored at startup. -/
structure DirEntry where
  remote_party_name : String
  xsi_user_id : String
  webex_user_id : String
  phone_number : Option String
  ext_number : String
  xsi_instance : XsiInstance

/-- The directory snapshot `xsi_user_map`: a dict from XSI user id to
entry, modelled as an association list with unique keys looked up
first-match. -/
abbrev XsiUserMap : Type := List (String × DirEntry)

/-- First-match lookup of a string key in the directory. -/
def pyLookup : XsiUserMap → String → Option DirEntry
  | [], _ => none
  | p :: rest, k => if p.1 == k then some p.2 else pyLookup rest k

/-- Embedding of `self.xsi_user_map.get(x)` where `x` is an arbitrary
extracted value: a string key is looked up, `None` is a hashable key
that is absent, and a dict or list key raises `TypeError` (unhashable),
modelled as `Except.error`. -/
def pyMapGet (m : XsiUserMap) : PyVal → Except Unit (Option DirEntry)
  | .vstr s => .ok (pyLookup m s)
  | .vnone => .ok none
  | .vdict _ => .error ()
  | .vlist _ => .error ()

/-- Observable effects of deciding one event: the account ids passed to
`check_user_permission` and the `(user_id, call_id)` arguments of each
`reject_call` invocation. -/
structure Effects where
  permission_queries : List String
  rejections : List (PyVal × PyVal)

/-- No oracle query and no termination. -/
def Effects.empty : Effects := ⟨[], []⟩

/-- `CallMonitor.handle_internal_call` (`call_monitor.py` lines
216-223): looks up both parties (a lookup on a truthy unhashable value
raises) and only logs — it produces no oracle query and no
termination. -/
def handle_internal_call (m : XsiUserMap) (xsi_user_id xsi_target_id _call_id : PyVal) :
    Except Unit Effects :=
  match (if truthy xsi_user_id then pyMapGet m xsi_user_id else .ok none) with
  | .error e => .error e
  | .ok _caller_entry =>
    match (if truthy xsi_target_id then pyMapGet m xsi_target_id else .ok none) with
    | .error e => .error e
    | .ok _receiver_entry => .ok Effects.empty

/-- `CallMonitor.handle_external_call` (`call_monitor.py` lines
225-243).  `perm` abstracts the answer of `check_user_permission` for a
given webex account id; the returned `Effects` record the query made and
the `reject_call` invocation when the answer is `false`. -/
def handle_external_call (m : XsiUserMap) (perm : String → Bool)
    (internal_xsi_user_id call_id event_type : PyVal) : Except Unit Effects :=
  match pyMapGet m internal_xsi_user_id with
  | .error e => .error e
  | .ok none => .ok Effects.empty
  | .ok (some entry) =>
    let w := entry.webex_user_id
    if pyStrEq event_type "xsi:CallReceivedEvent" && !(w == "") then
      .ok (if perm w then ⟨[w], []⟩ else ⟨[w], [(internal_xsi_user_id, call_id)]⟩)
    else if pyStrEq event_type "xsi:CallOriginatedEvent" && !(w == "") then
      .ok (if perm w then ⟨[w], []⟩ else ⟨[w], [(internal_xsi_user_id, call_id)]⟩)
    else .ok Effects.empty

/-- `CallMonitor.handle_event` (`call_monitor.py` lines 245-275):
classify, branch on truthiness of the two extracted ids, and catch any
exception from the branch bodies.  Note the source passes
`xsi_target_id` (not the computed `internal_xsi_user_id`) to
`handle_external_call` at line 270. -/
def handle_event (m : XsiUserMap) (perm : String → Bool) (event : PyVal) : Effects :=
  match extract_event_details event with
  | none => Effects.empty
  | some d =>
    if pyStrEq d.event_type "xsi:CallReceivedEvent" ||
        pyStrEq d.event_type "xsi:CallOriginatedEvent" then
      let internal_xsi_user_id := if truthy d.target_id then d.target_id else d.user_id
      let attempt : Except Unit Effects :=
        if truthy d.user_id && truthy d.target_id then
          handle_internal_call m d.user_id d.target_id d.call_id
        else if truthy internal_xsi_user_id then
          handle_external_call m perm d.target_id d.call_id d.event_type
        else
          .ok Effects.empty
      match attempt with
      | .ok eff => eff
      | .error _ => Effects.empty
    else Effects.empty

/-- One geolocation sample as returned by
`CRUDOperations.get_allow_list_entry_by_user_id` (`crud.py` lines
314-322).  `last_update` is an epoch timestamp; the column is
`nullable=False` and every write path in `crud.py` sets it, so it is
modelled as always present. -/
structure GeoSample where
  time : String
  latitude : Int
  longitude : Int
  last_update : Int

/-- One row of the `allow_list` table (`models.py`). -/
structure AllowListRow where
  user_id : String
  allow_caller : Bool

/-- One row of the `time_locations` table (`models.py`). -/
structure TimeLocationRow where
  user_id : String
  session_token : String
  time : String
  latitude : Int
  longitude : Int
  last_update : Int

/-- One row of the `user_list` table (`models.py`). -/
structure UserListRow where
  user_id : String
  session_token : String

/-- The stored state the core reads: the three tables relevant to the
permission and location endpoints. -/
structure DBData where
  user_list : List UserListRow
  allow_list : List AllowListRow
  time_locations : List TimeLocationRow

/-- A storage-layer exception (e.g. `SQLAlchemyError` raised by a
query); `check_user_permission` performs its queries outside any
`try` block. -/
inductive DBErr : Type where
  | storage : DBErr

/-- The dictionary view built by
`CRUDOperations.get_allow_list_entry_by_user_id` (`crud.py` lines
298-328): the allow-list row plus its related `TimeLocation` rows. -/
structure AllowEntryView where
  user_id : String
  allow_caller : Bool
  geolocation_data : List GeoSample

/-- Conversion of a `TimeLocation` row to the sample dict placed in
`geolocation_data` (`crud.py` lines 314-321). -/
def toGeoSample (r : TimeLocationRow) : GeoSample :=
  ⟨r.time, r.latitude, r.longitude, r.last_update⟩

/-- `CRUDOperations.get_allow_list_entry_by_user_id` on a healthy
storage layer: the first `allow_list` row matching the user id together
with that user's `TimeLocation` rows (the `time_locations`
relationship). -/
def get_allow_list_entry_by_user_id (db : DBData) (uid : String) : Option AllowEntryView :=
  match db.allow_list.find? (fun r => r.user_id == uid) with
  | none => none
  | some row =>
    some ⟨row.user_id, row.allow_caller,
      (db.time_locations.filter (fun t => t.user_id == uid)).map toGeoSample⟩

/-- `funcs.is_geolocation_timeout` (`funcs.py` lines 36-49) on a sample
dict produced by `CRUDOperations`: the sample is stale when
`now - last_update > timeout`.  The source's missing-key branch
(`last_update is None`, returning `True`) is unreachable for these
dicts, which always carry the non-nullable column value. -/
def is_geolocation_timeout (timeout now : Int) (geolocation_data : GeoSample) : Bool :=
  decide (now - geolocation_data.last_update > timeout)

/-- Python `max(samples, key=lambda x: x.last_update)` on a nonempty
list: keeps the current maximum, replacing it only on a strictly
greater key, so the first maximal element wins. -/
def pymax_by_last_update : GeoSample → List GeoSample → GeoSample
  | acc, [] => acc
  | acc, g :: rest =>
    pymax_by_last_update (if g.last_update > acc.last_update then g else acc) rest

/-- `CallMonitor.check_user_permission` (`call_monitor.py` lines
146-172).  The database is `Except DBErr DBData`: the source wraps none
of its queries in a `try`, so a storage-layer exception propagates.
On a healthy store: `False` when the user has no allow-list row or no
samples, otherwise `True` exactly when the freshest sample has not
timed out. -/
def check_user_permission (timeout now : Int) (db : Except DBErr DBData)
    (user_id : String) : Except DBErr Bool :=
  match db with
  | .error e => .error e
  | .ok d =>
    match get_allow_list_entry_by_user_id d user_id with
    | some entry =>
      match entry.geolocation_data with
      | [] => .ok false
      | g :: rest =>
        if is_geolocation_timeout timeout now (pymax_by_last_update g rest) then .ok false
        else .ok true
    | none => .ok false

/-- The configured bounding box (`LAT_MIN`/`LAT_MAX`/`LON_MIN`/
`LON_MAX` from the environment). -/
structure Bounds where
  lat_min : Int
  lat_max : Int
  lon_min : Int
  lon_max : Int

/-- `funcs.in_country` (`funcs.py` lines 25-33): bounding-box
containment of the reported coordinates. -/
def in_country (b : Bounds) (latitude longitude : Int) : Bool :=
  decide (b.lat_min ≤ latitude) && decide (latitude ≤ b.lat_max) &&
    decide (b.lon_min ≤ longitude) && decide (longitude ≤ b.lon_max)

/-- Request body of the `/update-time-location-db` endpoint
(`routes.py`). -/
structure TimeLocationData where
  sessionToken : String
  time : String
  latitude : Int
  longitude : Int

/-- Responses of the `/update-time-location-db` endpoint. -/
inductive RouteResp : Type where
  | unauthorized401 : RouteResp
  | forbidden403 : RouteResp
  | updated_ok : RouteResp
  | updated_and_added : RouteResp

/-- `CRUDOperations.read_user_list` by session token (`crud.py` lines
186-189). -/
def read_user_list (db : DBData) (session_token : String) : Option UserListRow :=
  db.user_list.find? (fun r => r.session_token == session_token)

/-- `CRUDOperations.create_allow_list_entry` (`crud.py` lines 237-251). -/
def create_allow_list_entry (db : DBData) (uid : String) (allow_caller : Bool) : DBData :=
  { db with allow_list := db.allow_list ++ [⟨uid, allow_caller⟩] }

/-- Replace the first `TimeLocation` row for a user id, if any. -/
def replace_first_time_location : List TimeLocationRow → String → TimeLocationRow →
    Option (List TimeLocationRow)
  | [], _, _ => none
  | r :: rest, uid, newr =>
    if r.user_id == uid then some (newr :: rest)
    else (replace_first_time_location rest uid newr).map (fun l => r :: l)

/-- `CRUDOperations.create_time_location_entry` (`crud.py` lines
347-365): appends a new row stamped `last_update := now`. -/
def create_time_location_entry (now : Int) (db : DBData) (uid tok time : String)
    (latitude longitude : Int) : DBData :=
  { db with time_locations := db.time_locations ++ [⟨uid, tok, time, latitude, longitude, now⟩] }

/-- `CRUDOperations.update_time_location_entry` (`crud.py` lines
367-390): updates the first `TimeLocation` row for the user in place
(stamping `last_update := now`), or creates one when absent. -/
def update_time_location_entry (now : Int) (db : DBData) (uid tok time : String)
    (latitude longitude : Int) : DBData :=
  match replace_first_time_location db.time_locations uid
      ⟨uid, tok, time, latitude, longitude, now⟩ with
  | some l => { db with time_locations := l }
  | none => create_time_location_entry now db uid tok time latitude longitude

/-- The `/update-time-location-db` endpoint (`routes.py` lines
274-318): resolve the session token, gate on `in_country`, then store
the sample (adding the user to the allow list when absent).  When the
coordinates fall outside the bounding box the request is refused with
403 before anything is written. -/
def update_time_location_db (b : Bounds) (now : Int) (db : DBData)
    (data : TimeLocationData) : DBData × RouteResp :=
  match read_user_list db data.sessionToken with
  | none => (db, .unauthorized401)
  | some row =>
    let uid := row.user_id
    if in_country b data.latitude data.longitude then
      match get_allow_list_entry_by_user_id db uid with
      | some _ =>
        (update_time_location_entry now db uid data.sessionToken data.time
          data.latitude data.longitude, .updated_ok)
      | none =>
        (update_time_location_entry now (create_allow_list_entry db uid true) uid
          data.sessionToken data.time data.latitude data.longitude, .updated_and_added)
    else (db, .forbidden403)

/-- Outcome of the per-call hangup loop in `reject_call`
(`call_monitor.py` lines 195-200): each active call is attempted, a
raising `hangup()` is caught and logged for that call alone. -/
def hangup_results (calls : List XsiCall) : List (String × Bool) :=
  calls.map (fun c => (c.id, c.hangup_ok))

/-- `CallMonitor.reject_call` (`call_monitor.py` lines 174-204): look
the user up, enumerate their active calls and attempt to hang up every
one; a failing enumeration is caught by the outer `try` and a failing
hangup by the inner per-call `try`.  The returned list records each
attempted hangup and whether it succeeded. -/
def reject_call (m : XsiUserMap) (user_id _call_id : PyVal) :
    Except Unit (List (String × Bool)) :=
  match pyMapGet m user_id with
  | .error e => .error e
  | .ok none => .ok []
  | .ok (some entry) =>
    if entry.xsi_instance.calls_ok then .ok (hangup_results entry.xsi_instance.calls)
    else .ok []

/-- One iteration of the `monitor_calls` loop body (`call_monitor.py`
lines 286-293): dequeue, skip falsy events, handle, and catch any
exception the handler raises (`none` records a skipped or failed
iteration).  `handler` abstracts `self.handle_event`, which may raise. -/
def monitor_step (handler : PyVal → Except Unit Effects) (event : PyVal) : Option Effects :=
  if truthy event then
    match handler event with
    | .ok eff => some eff
    | .error _ => none
  else none

/-- `CallMonitor.monitor_calls` (`call_monitor.py` lines 277-293) run
over a finite queue of events: every queued event is dequeued and
given to `monitor_step`. -/
def monitor_calls (handler : PyVal → Except Unit Effects) (events_queue : List PyVal) :
    List (Option Effects) :=
  events_queue.map (monitor_step handler)

/-- One phone-number dict from `person.wxc_numbers` (`call_monitor.py`
lines 92-96). -/
structure PhoneNumber where
  primary : Bool
  directNumber : Option String
  ext_value : Option String

/-- One roster member as consumed by `CallMonitor.__init__`
(`call_monitor.py` lines 87-110); `start_xsi_ok` records whether
`person.start_xsi()` succeeds or raises. -/
structure Person where
  start_xsi_ok : Bool
  id : String
  name : String
  phoneNumbers : List PhoneNumber
  profile_user_id : String
  xsi_instance : XsiInstance

/-- The primary phone number selection (`call_monitor.py` lines 93-94):
the first number flagged primary, else the first number, else none. -/
def choose_primary (l : List PhoneNumber) : Option PhoneNumber :=
  match l.find? (fun pn => pn.primary) with
  | some pn => some pn
  | none => l.head?

/-- The directory entry built for one person (`call_monitor.py` lines
95-110): the sentinel string is stored when the person has no phone
number at all. -/
def mkDirEntry (p : Person) : DirEntry :=
  let primary := choose_primary p.phoneNumbers
  let direct_number : Option String :=
    match primary with
    | some pn => pn.directNumber
    | none => some "No number available"
  let ext : String :=
    match primary with
    | some pn => (pn.ext_value).getD ""
    | none => ""
  ⟨p.name, p.profile_user_id, p.id, direct_number, ext, p.xsi_instance⟩

/-- Python dict assignment `xsi_user_map[k] = v`: overwrite an existing
key, else append. -/
def dictInsert (k : String) (v : DirEntry) : XsiUserMap → XsiUserMap
  | [] => [(k, v)]
  | p :: rest => if p.1 == k then (k, v) :: rest else p :: dictInsert k v rest

/-- The directory-building loop of `CallMonitor.__init__`
(`call_monitor.py` lines 87-110), which calls `person.start_xsi()`
first in each iteration with no `try` around it: a raising `start_xsi`
propagates and aborts the whole construction. -/
def build_loop (acc : XsiUserMap) : List Person → Except Unit XsiUserMap
  | [] => .ok acc
  | p :: rest =>
    if p.start_xsi_ok then
      build_loop (dictInsert p.profile_user_id (mkDirEntry p) acc) rest
    else .error ()

/-- Directory snapshot construction (`CallMonitor.__init__`). -/
def build_xsi_user_map (people : List Person) : Except Unit XsiUserMap :=
  build_loop [] people

/-- Well-formed directory snapshot: every stored XSI user id and webex
account id is a nonempty string (both come from the platform's
identifiers). -/
def WFDir (m : XsiUserMap) : Prop :=
  ∀ p ∈ m, p.1 ≠ "" ∧ p.2.webex_user_id ≠ ""

/-- A session handle with one successfully terminable call `c1`. -/
def inst0 : XsiInstance := ⟨true, [⟨"c1", true⟩]⟩

/-- Directory entry for the internal user with XSI id `100` and webex
account `acct-1`. -/
def entry100 : DirEntry := ⟨"User One", "100", "acct-1", some "+15551000", "", inst0⟩

/-- Directory entry for the internal user with XSI id `200` and webex
account `acct-2`. -/
def entry200 : DirEntry := ⟨"User Two", "200", "acct-2", some "+15552000", "", inst0⟩

/-- A one-user directory snapshot. -/
def dirB : XsiUserMap := [("100", entry100)]

/-- A two-user directory snapshot. -/
def dirC : XsiUserMap := [("100", entry100), ("200", entry200)]

/-- An inbound call event: kind CallReceived, target `100`, external
remote party (no `xsi:userId`), call id `c1`. -/
def sampleEventB : PyVal :=
  .vdict [("xsi:Event", .vdict [
      ("xsi:eventData", .vdict [
          ("@xsi1:type", .vstr "xsi:CallReceivedEvent"),
          ("xsi:call", .vdict [
              ("xsi:callId", .vstr "c1"),
              ("xsi:remoteParty", .vdict [
                  ("xsi:name", .vstr "Ext Caller"),
                  ("xsi:userDN", .vdict [("#text", .vstr "+15550100")])])])]),
      ("xsi:targetId", .vstr "100")])]

/-- An outbound call event: kind CallOriginated, caller (remote-party
user id) `100`, no target id, call id `c2`. -/
def sampleEventOut : PyVal :=
  .vdict [("xsi:Event", .vdict [
      ("xsi:eventData", .vdict [
          ("@xsi1:type", .vstr "xsi:CallOriginatedEvent"),
          ("xsi:call", .vdict [
              ("xsi:callId", .vstr "c2"),
              ("xsi:remoteParty", .vdict [
                  ("xsi:name", .vstr "User One"),
                  ("xsi:userId", .vstr "100"),
                  ("xsi:userDN", .vdict [("#text", .vstr "+15551000")])])])])])]

/-- An internal-to-internal call event: caller `200`, target `100`,
call id `c3`. -/
def sampleEventC : PyVal :=
  .vdict [("xsi:Event", .vdict [
      ("xsi:eventData", .vdict [
          ("@xsi1:type", .vstr "xsi:CallReceivedEvent"),
          ("xsi:call", .vdict [
              ("xsi:callId", .vstr "c3"),
              ("xsi:remoteParty", .vdict [
                  ("xsi:name", .vstr "User Two"),
                  ("xsi:userId", .vstr "200")])])]),
      ("xsi:targetId", .vstr "100")])]

/-- A stored state: `acct-1` on the allow list with one sample stamped
at epoch 700 and coordinates (10, 20). -/
def db1 : DBData := ⟨[⟨"acct-1", "tok"⟩], [⟨"acct-1", true⟩], [⟨"acct-1", "tok", "t0", 10, 20, 700⟩]⟩

/-- The same stored state with the sample's coordinates moved to
(99, 99); everything else identical. -/
def db1b : DBData := ⟨[⟨"acct-1", "tok"⟩], [⟨"acct-1", true⟩], [⟨"acct-1", "tok", "t0", 99, 99, 700⟩]⟩

/-- A successful lookup in the directory snapshot finds a stored pair. -/
theorem pyLookup_mem (m : XsiUserMap) (k : String) (e : DirEntry)
    (h : pyLookup m k = some e) : (k, e) ∈ m := by
  induction m with
  | nil => simp [pyLookup] at h
  | cons p rest ih =>
    obtain ⟨k0, e0⟩ := p
    simp only [pyLookup] at h
    split at h
    · next hk =>
      injection h with h2
      subst h2
      have hk2 : k0 = k := by simpa using hk
      subst hk2
      exact List.mem_cons_self _ _
    · next hk =>
      exact List.mem_cons_of_mem _ (ih h)

/-- C2: for every event whose caller internal-id and target internal-id
both resolve in the (well-formed) directory snapshot, `handle_event`
takes the internal-internal branch and allows the call: it performs no
`check_user_permission` query and no `reject_call` invocation,
regardless of the oracle's state `perm`. -/
theorem internal_internal_bypass (m : XsiUserMap) (perm : String → Bool) (event : PyVal)
    (d : EventDetails) (cu ct : String) (ecu ect : DirEntry)
    (hwf : WFDir m)
    (hx : extract_event_details event = some d)
    (hu : d.user_id = .vstr cu) (ht : d.target_id = .vstr ct)
    (hcu : pyLookup m cu = some ecu) (hct : pyLookup m ct = some ect) :
    handle_event m perm event = Effects.empty := by
  have hcu0 : cu ≠ "" := (hwf _ (pyLookup_mem m cu ecu hcu)).1
  have hct0 : ct ≠ "" := (hwf _ (pyLookup_mem m ct ect hct)).1
  have htu : truthy d.user_id = true := by rw [hu]; simp [truthy, hcu0]
  have htt : truthy d.target_id = true := by rw [ht]; simp [truthy, hct0]
  unfold handle_event
  rw [hx]
  by_cases hkind : (pyStrEq d.event_type "xsi:CallReceivedEvent" ||
      pyStrEq d.event_type "xsi:CallOriginatedEvent") = true
  · simp only [hkind, if_true, htu, htt, Bool.and_self]
    rw [hu, ht]
    simp [handle_internal_call, pyMapGet, truthy, hcu0, hct0]
  · simp only [Bool.not_eq_true] at hkind
    simp [hkind]

/-- C2 witness: Scenario C — caller `200` and target `100` both in the
directory, an always-deny oracle, and still no query and no
termination. -/
theorem internal_internal_bypass_witness :
    handle_event dirC (fun _ => false) sampleEventC = Effects.empty :=
  internal_internal_bypass dirC (fun _ => false) sampleEventC
    ⟨.vstr "xsi:CallReceivedEvent", .vstr "c3", .vstr "200", .vstr "100"⟩
    "200" "100" entry200 entry100 (by unfold WFDir; decide) rfl rfl rfl rfl rfl

/-- C3 counterexample: `check_user_permission` is not exception-free —
the source wraps none of its database queries in a `try`, so a
storage-layer error propagates to the caller instead of resolving to
`false`. -/
theorem check_user_permission_storage_error_cex :
    check_user_permission 300 1000 (.error .storage) "acct-1" = .error .storage ∧
    check_user_permission 300 1000 (.error .storage) "acct-1" ≠ .ok false :=
  ⟨rfl, fun h => Except.noConfusion h⟩

/-- C3 (amended): on a healthy storage layer `check_user_permission`
never throws, and it is fail-closed: no allow-list record, no stored
sample, or an expired freshest sample each yield `false`.  (A storage
error instead propagates; the counterexample shows it is not converted
to `false`.) -/
theorem check_user_permission_fail_closed (timeout now : Int) (d : DBData) (uid : String) :
    (∃ b, check_user_permission timeout now (.ok d) uid = .ok b) ∧
    (get_allow_list_entry_by_user_id d uid = none →
      check_user_permission timeout now (.ok d) uid = .ok false) ∧
    (∀ entry, get_allow_list_entry_by_user_id d uid = some entry →
      entry.geolocation_data = [] →
      check_user_permission timeout now (.ok d) uid = .ok false) ∧
    (∀ entry g rest, get_allow_list_entry_by_user_id d uid = some entry →
      entry.geolocation_data = g :: rest →
      now - (pymax_by_last_update g rest).last_update > timeout →
      check_user_permission timeout now (.ok d) uid = .ok false) := by
  refine ⟨?_, ?_, ?_, ?_⟩
  · cases hget : get_allow_list_entry_by_user_id d uid with
    | none => exact ⟨false, by simp [check_user_permission, hget]⟩
    | some entry =>
      cases hgs : entry.geolocation_data with
      | nil => exact ⟨false, by simp [check_user_permission, hget, hgs]⟩
      | cons g rest =>
        by_cases hto : is_geolocation_timeout timeout now (pymax_by_last_update g rest) = true
        · exact ⟨false, by simp [check_user_permission, hget, hgs, hto]⟩
        · refine ⟨true, ?_⟩
          simp only [Bool.not_eq_true] at hto
          simp [check_user_permission, hget, hgs, hto]
  · intro hget
    simp [check_user_permission, hget]
  · intro entry hget hgs
    simp [check_user_permission, hget, hgs]
  · intro entry g rest hget hgs hstale
    simp [check_user_permission, hget, hgs, is_geolocation_timeout, hstale]

/-- C3 witness: an unknown account and an account with only a stale
sample both resolve to `false` without an exception. -/
theorem check_user_permission_fail_closed_witness :
    check_user_permission 300 1000 (.ok db1) "acct-9" = .ok false ∧
    check_user_permission 300 1001 (.ok db1) "acct-1" = .ok false :=
  ⟨(check_user_permission_fail_closed 300 1000 db1 "acct-9").2.1 rfl,
   (check_user_permission_fail_closed 300 1001 db1 "acct-1").2.2.2
     ⟨"acct-1", true, [⟨"t0", 10, 20, 700⟩]⟩ ⟨"t0", 10, 20, 700⟩ [] rfl rfl (by decide)⟩

/-- C4: the staleness boundary is inclusive — with the freshest stored
sample (the one `max` selects by `last_update`), `now - last_update`
equal to the timeout yields permitted, and strictly exceeding it (in
particular `timeout + 1`) yields not permitted. -/
theorem staleness_boundary_inclusive (timeout now : Int) (d : DBData) (uid : String)
    (entry : AllowEntryView) (g : GeoSample) (rest : List GeoSample)
    (hget : get_allow_list_entry_by_user_id d uid = some entry)
    (hgs : entry.geolocation_data = g :: rest) :
    (now - (pymax_by_last_update g rest).last_update = timeout →
      check_user_permission timeout now (.ok d) uid = .ok true) ∧
    (now - (pymax_by_last_update g rest).last_update > timeout →
      check_user_permission timeout now (.ok d) uid = .ok false) := by
  constructor
  · intro hb
    have hno : ¬ (now - (pymax_by_last_update g rest).last_update > timeout) := by omega
    simp [check_user_permission, hget, hgs, is_geolocation_timeout, hno]
  · intro hb
    simp [check_user_permission, hget, hgs, is_geolocation_timeout, hb]

/-- C4 witness: with timeout 300 and a sample stamped 700, the user is
permitted at `now = 1000` (difference exactly 300) and not permitted at
`now = 1001` (difference 301). -/
theorem staleness_boundary_inclusive_witness :
    check_user_permission 300 1000 (.ok db1) "acct-1" = .ok true ∧
    check_user_permission 300 1001 (.ok db1) "acct-1" = .ok false :=
  ⟨(staleness_boundary_inclusive 300 1000 db1 "acct-1"
      ⟨"acct-1", true, [⟨"t0", 10, 20, 700⟩]⟩ ⟨"t0", 10, 20, 700⟩ [] rfl rfl).1 (by decide),
   (staleness_boundary_inclusive 300 1001 db1 "acct-1"
      ⟨"acct-1", true, [⟨"t0", 10, 20, 700⟩]⟩ ⟨"t0", 10, 20, 700⟩ [] rfl rfl).2 (by decide)⟩

/-- C1 counterexample: an actionable CallOriginated event in which
exactly one party resolves — the caller `100` is in the directory, the
target id is absent — and the oracle denies everyone, yet
`handle_event` performs no permission query and no `reject_call`
invocation (the source passes the empty `xsi_target_id` to
`handle_external_call`).  This refutes the claim's "when the resolved
party is the caller" half. -/
theorem resolved_caller_not_blocked_cex :
    extract_event_details sampleEventOut =
      some ⟨.vstr "xsi:CallOriginatedEvent", .vstr "c2", .vstr "100", .vdict []⟩ ∧
    pyLookup dirB "100" = some entry100 ∧
    pyMapGet dirB (.vdict []) = .error () ∧
    handle_event dirB (fun _ => false) sampleEventOut = Effects.empty :=
  ⟨rfl, rfl, rfl, rfl⟩

/-- C1 (amended): when the target internal-id resolves in the
(well-formed) directory and the caller field is absent or empty, the
engine queries the oracle for the target's webex account id and, on a
not-permitted answer, invokes the actuator with that target's
internal-id and the event's call id; this holds for both actionable
event kinds.  (The symmetric caller-resolved case performs no query and
no termination — see the counterexample.) -/
theorem external_target_decision (m : XsiUserMap) (perm : String → Bool) (event : PyVal)
    (d : EventDetails) (t : String) (e : DirEntry)
    (hwf : WFDir m)
    (hx : extract_event_details event = some d)
    (hkind : d.event_type = .vstr "xsi:CallReceivedEvent" ∨
      d.event_type = .vstr "xsi:CallOriginatedEvent")
    (ht : d.target_id = .vstr t)
    (he : pyLookup m t = some e)
    (hu : truthy d.user_id = false) :
    handle_event m perm event =
      ⟨[e.webex_user_id],
        if perm e.webex_user_id then [] else [(.vstr t, d.call_id)]⟩ := by
  have hmem := pyLookup_mem m t e he
  have ht0 : t ≠ "" := (hwf _ hmem).1
  have hw0 : e.webex_user_id ≠ "" := (hwf _ hmem).2
  have htt : truthy d.target_id = true := by rw [ht]; simp [truthy, ht0]
  have hwb : (e.webex_user_id == "") = false := by simpa using hw0
  unfold handle_event
  rw [hx]
  rcases hkind with hk | hk
  · have hkb : (pyStrEq d.event_type "xsi:CallReceivedEvent" ||
        pyStrEq d.event_type "xsi:CallOriginatedEvent") = true := by
      rw [hk]; rfl
    simp only [hkb, if_true, hu, htt, Bool.false_and]
    rw [ht, hk]
    simp [handle_external_call, pyMapGet, he, pyStrEq, hwb]
    by_cases hp : perm e.webex_user_id <;> simp [hp]
  · have hkb : (pyStrEq d.event_type "xsi:CallReceivedEvent" ||
        pyStrEq d.event_type "xsi:CallOriginatedEvent") = true := by
      rw [hk]; rfl
    simp only [hkb, if_true, hu, htt, Bool.false_and]
    rw [ht, hk]
    simp [handle_external_call, pyMapGet, he, pyStrEq, hwb]
    by_cases hp : perm e.webex_user_id <;> simp [hp]

/-- C1 witness: Scenario B — inbound event with target `100` in the
directory, caller absent, oracle denying `acct-1`: the oracle is
queried for `acct-1` and the actuator is invoked with internal-id
`100` and call id `c1`. -/
theorem external_target_decision_witness :
    handle_event dirB (fun _ => false) sampleEventB =
      ⟨["acct-1"], [(.vstr "100", .vstr "c1")]⟩ :=
  external_target_decision dirB (fun _ => false) sampleEventB
    ⟨.vstr "xsi:CallReceivedEvent", .vstr "c1", .vdict [], .vstr "100"⟩
    "100" entry100 (by unfold WFDir; decide) rfl (Or.inl rfl) rfl rfl rfl

/-- C5: the ingestion loop isolates failures per event — processing a
queue is element-wise, so when the handler raises on one event (caught
in the loop body, yielding `none` for that iteration) every event
before and after it is still dequeued and handled exactly as it would
be on its own. -/
theorem monitor_loop_isolation (handler : PyVal → Except Unit Effects)
    (xs ys : List PyVal) (b : PyVal) (hb : handler b = .error ()) :
    monitor_calls handler (xs ++ b :: ys) =
      monitor_calls handler xs ++ none :: monitor_calls handler ys := by
  simp [monitor_calls, monitor_step, hb]

/-- The loop-body handler used in the C5 witness: the real
`handle_event` pipeline on truthy events, raising on the malformed
(falsy) event. -/
def witnessHandler : PyVal → Except Unit Effects :=
  fun e => if truthy e then .ok (handle_event dirC (fun _ => false) e) else .error ()

/-- C5 witness: a malformed event (`None`) sits between Scenario B's
deny event and Scenario C's internal-internal event; both well-formed
neighbours are fully classified and decided. -/
theorem monitor_loop_isolation_witness :
    monitor_calls witnessHandler [sampleEventB, .vnone, sampleEventC] =
      [some ⟨["acct-1"], [(.vstr "100", .vstr "c1")]⟩, none, some Effects.empty] :=
  (monitor_loop_isolation witnessHandler [sampleEventB] [sampleEventC] .vnone rfl).trans rfl

/-- C6: the classifier is total by construction (`extract_event_details`
returns a record for every raw value, the caught-exception path giving
the empty one), and an event whose extracted type discriminator is not
one of the two actionable kinds — in particular one missing the
discriminator, which extracts as the falsy empty dict — produces no
verdict: no permission query and no `reject_call` invocation. -/
theorem nonactionable_no_verdict (m : XsiUserMap) (perm : String → Bool) (event : PyVal)
    (h : ∀ d, extract_event_details event = some d →
      (pyStrEq d.event_type "xsi:CallReceivedEvent" ||
        pyStrEq d.event_type "xsi:CallOriginatedEvent") = false) :
    handle_event m perm event = Effects.empty := by
  cases hx : extract_event_details event with
  | none => simp [handle_event, hx]
  | some d => simp [handle_event, hx, h d hx]

/-- C6 witness: Scenario D — an event carrying no type discriminator at
all: every extracted field is the empty default and the engine produces
no query and no termination. -/
theorem nonactionable_no_verdict_witness :
    extract_event_details (.vdict []) =
      some ⟨.vdict [], .vstr "", .vdict [], .vdict []⟩ ∧
    handle_event dirB (fun _ => false) (.vdict []) = Effects.empty :=
  ⟨rfl,
   nonactionable_no_verdict dirB (fun _ => false) (.vdict [])
     (by
       intro d hd
       have h2 : some (⟨.vdict [], .vstr "", .vdict [], .vdict []⟩ : EventDetails) = some d := hd
       obtain rfl := Option.some.inj h2
       rfl)⟩

/-- C9: classification is deterministic — `extract_event_details` is a
pure function of the raw event value, so applying it to the same value
twice yields identical normalized records. -/
theorem classification_deterministic (e1 e2 : PyVal) (h : e1 = e2) :
    extract_event_details e1 = extract_event_details e2 := by rw [h]

/-- C9 witness: classifying Scenario B's raw event twice yields
identical records. -/
theorem classification_deterministic_witness :
    extract_event_details sampleEventB = extract_event_details sampleEventB :=
  classification_deterministic sampleEventB sampleEventB rfl

/-- A roster member whose subscription activation succeeds. -/
def pGood : Person := ⟨true, "acct-1", "User One", [⟨true, some "+15551000", none⟩], "100", inst0⟩

/-- A roster member whose `start_xsi()` raises. -/
def pBad : Person := ⟨false, "acct-2", "User Two", [], "200", inst0⟩

/-- The build loop fails as soon as any member's `start_xsi` raises. -/
theorem build_loop_error (p : Person) (hbad : p.start_xsi_ok = false) :
    ∀ (people : List Person), p ∈ people → ∀ acc, build_loop acc people = .error () := by
  intro people
  induction people with
  | nil => intro hp; cases hp
  | cons q rest ih =>
    intro hp acc
    rcases List.mem_cons.mp hp with rfl | hmem
    · simp [build_loop, hbad]
    · by_cases hq : q.start_xsi_ok
      · simp only [build_loop, hq, if_true]
        exact ih hmem _
      · simp [build_loop, hq]

/-- The build loop succeeds when every member's `start_xsi` succeeds. -/
theorem build_loop_ok (people : List Person) (h : ∀ p ∈ people, p.start_xsi_ok = true) :
    ∀ acc, ∃ m, build_loop acc people = .ok m := by
  induction people with
  | nil => intro acc; exact ⟨acc, rfl⟩
  | cons q rest ih =>
    intro acc
    have hq : q.start_xsi_ok = true := h q (List.mem_cons_self _ _)
    simp only [build_loop, hq, if_true]
    exact ih (fun p hp => h p (List.mem_cons_of_mem _ hp)) _

/-- C7 counterexample: a roster whose first member's `start_xsi` raises
and whose second member is healthy — the whole build fails with no
directory at all, instead of skipping the failing member and keeping an
entry for the healthy one. -/
theorem build_not_tolerant_cex :
    build_xsi_user_map [pBad, pGood] = .error () ∧
    (∀ m, build_xsi_user_map [pBad, pGood] ≠ .ok m) :=
  ⟨rfl, fun _ h => Except.noConfusion h⟩

/-- C7 (amended): a `start_xsi` failure for any roster member is fatal
to the whole directory build — the exception propagates out of
`CallMonitor.__init__` and no directory is produced; the build
completes precisely when every member's subscription activation
succeeds. -/
theorem build_fails_on_member_failure (people : List Person) :
    (∀ p ∈ people, p.start_xsi_ok = false → build_xsi_user_map people = .error ()) ∧
    ((∀ p ∈ people, p.start_xsi_ok = true) → ∃ m, build_xsi_user_map people = .ok m) := by
  constructor
  · intro p hp hbad
    exact build_loop_error p hbad people hp []
  · intro h
    exact build_loop_ok people h []

/-- C7 witness: one failing member among two aborts the build; the same
roster without the failing member builds a directory. -/
theorem build_fails_on_member_failure_witness :
    build_xsi_user_map [pGood, pBad] = .error () ∧
    (∃ m, build_xsi_user_map [pGood] = .ok m) :=
  ⟨(build_fails_on_member_failure [pGood, pBad]).1 pBad
      (List.mem_cons_of_mem _ (List.mem_cons_self _ _)) rfl,
   (build_fails_on_member_failure [pGood]).2 (by
      intro p hp
      rcases List.mem_cons.mp hp with rfl | hp2
      · rfl
      · cases hp2)⟩

/-- C8: termination is best-effort with per-call isolation — for a user
resolved in the directory whose session handle enumerates its active
calls, `reject_call` attempts the hangup of every active call (the
result list records one attempt per call, failures included) and
returns normally rather than propagating any hangup failure. -/
theorem reject_call_attempts_all (m : XsiUserMap) (uid : String) (e : DirEntry) (cid : PyVal)
    (hlook : pyLookup m uid = some e)
    (hcalls : e.xsi_instance.calls_ok = true) :
    reject_call m (.vstr uid) cid = .ok (hangup_results e.xsi_instance.calls) ∧
    (hangup_results e.xsi_instance.calls).length = e.xsi_instance.calls.length := by
  constructor
  · simp [reject_call, pyMapGet, hlook, hcalls]
  · simp [hangup_results]

/-- Directory entry whose session handle holds two active calls, the
first of which fails to hang up. -/
def entryRej : DirEntry :=
  ⟨"User Five", "500", "acct-5", some "+15555000", "",
    ⟨true, [⟨"c1", false⟩, ⟨"c2", true⟩]⟩⟩

/-- A directory containing only `entryRej`. -/
def dirRej : XsiUserMap := [("500", entryRej)]

/-- C8 witness: the first hangup fails, yet the second call is still
attempted and the function returns normally. -/
theorem reject_call_attempts_all_witness :
    reject_call dirRej (.vstr "500") (.vstr "c1") = .ok [("c1", false), ("c2", true)] ∧
    ([("c1", false), ("c2", true)] : List (String × Bool)).length = 2 :=
  ⟨(reject_call_attempts_all dirRej "500" entryRej (.vstr "c1") rfl rfl).1, rfl⟩

/-- A `TimeLocation` row with its latitude and longitude erased. -/
structure LocShape where
  user_id : String
  session_token : String
  time : String
  last_update : Int

/-- Erase the coordinates of one row. -/
def locShape (r : TimeLocationRow) : LocShape :=
  ⟨r.user_id, r.session_token, r.time, r.last_update⟩

/-- A stored state with every location sample's coordinates erased. -/
structure DBShape where
  user_list : List UserListRow
  allow_list : List AllowListRow
  loc_shapes : List LocShape

/-- Erase all coordinates from a stored state. -/
def dbShape (d : DBData) : DBShape :=
  ⟨d.user_list, d.allow_list, d.time_locations.map locShape⟩

/-- Erase coordinates through the storage-error layer. -/
def exceptShape : Except DBErr DBData → Except DBErr DBShape
  | .error e => .error e
  | .ok d => .ok (dbShape d)

/-- The sample Python `max` selects has a `last_update` determined by
the `last_update` sequence alone. -/
theorem pymax_lu_congr :
    ∀ (r1 r2 : List GeoSample) (g1 g2 : GeoSample),
      g1.last_update = g2.last_update →
      r1.map GeoSample.last_update = r2.map GeoSample.last_update →
      (pymax_by_last_update g1 r1).last_update = (pymax_by_last_update g2 r2).last_update := by
  intro r1
  induction r1 with
  | nil =>
    intro r2 g1 g2 hg hr
    cases r2 with
    | nil => simpa [pymax_by_last_update] using hg
    | cons b r2t => simp at hr
  | cons a r ih =>
    intro r2 g1 g2 hg hr
    cases r2 with
    | nil => simp at hr
    | cons b r2t =>
      simp only [List.map_cons, List.cons.injEq] at hr
      obtain ⟨hab, hrt⟩ := hr
      simp only [pymax_by_last_update]
      apply ih
      · have hcond : (a.last_update > g1.last_update) ↔ (b.last_update > g2.last_update) := by
          rw [hab, hg]
        by_cases hc : b.last_update > g2.last_update
        · rw [if_pos (hcond.mpr hc), if_pos hc]
          exact hab
        · rw [if_neg (fun hx => hc (hcond.mp hx)), if_neg hc]
          exact hg
      · exact hrt

/-- The `last_update` sequence of a user's sample view is determined by
the coordinate-erased rows. -/
theorem filter_map_lu_congr :
    ∀ (l1 l2 : List TimeLocationRow) (uid : String),
      l1.map locShape = l2.map locShape →
      ((l1.filter (fun t => t.user_id == uid)).map toGeoSample).map GeoSample.last_update =
        ((l2.filter (fun t => t.user_id == uid)).map toGeoSample).map GeoSample.last_update := by
  intro l1
  induction l1 with
  | nil =>
    intro l2 uid h
    cases l2 with
    | nil => rfl
    | cons b r2 => simp at h
  | cons a r ih =>
    intro l2 uid h
    cases l2 with
    | nil => simp at h
    | cons b r2 =>
      simp only [List.map_cons, List.cons.injEq] at h
      obtain ⟨hab, hr⟩ := h
      have huid : a.user_id = b.user_id := congrArg LocShape.user_id hab
      have hlu : a.last_update = b.last_update := congrArg LocShape.last_update hab
      simp only [List.filter_cons, huid]
      by_cases hc : (b.user_id == uid) = true
      · simp only [hc, if_true, List.map_cons, List.cons.injEq]
        exact ⟨hlu, ih r2 uid hr⟩
      · simp only [hc, if_false]
        exact ih r2 uid hr

/-- On healthy stores with the same shape, `check_user_permission`
agrees. -/
theorem check_user_permission_shape_congr (timeout now : Int) (d1 d2 : DBData) (uid : String)
    (h : dbShape d1 = dbShape d2) :
    check_user_permission timeout now (.ok d1) uid =
      check_user_permission timeout now (.ok d2) uid := by
  have hal : d1.allow_list = d2.allow_list := congrArg DBShape.allow_list h
  have hloc : d1.time_locations.map locShape = d2.time_locations.map locShape :=
    congrArg DBShape.loc_shapes h
  have hmap := filter_map_lu_congr d1.time_locations d2.time_locations uid hloc
  simp only [check_user_permission, get_allow_list_entry_by_user_id, hal]
  cases hfind : d2.allow_list.find? (fun r => r.user_id == uid) with
  | none => rfl
  | some row =>
    cases hg1 : (d1.time_locations.filter (fun t => t.user_id == uid)).map toGeoSample with
    | nil =>
      cases hg2 : (d2.time_locations.filter (fun t => t.user_id == uid)).map toGeoSample with
      | nil => rfl
      | cons b r2 => rw [hg1, hg2] at hmap; simp at hmap
    | cons a r1 =>
      cases hg2 : (d2.time_locations.filter (fun t => t.user_id == uid)).map toGeoSample with
      | nil => rw [hg1, hg2] at hmap; simp at hmap
      | cons b r2 =>
        rw [hg1, hg2] at hmap
        simp only [List.map_cons, List.cons.injEq] at hmap
        obtain ⟨hab, hrt⟩ := hmap
        have hpm := pymax_lu_congr r1 r2 a b hab hrt
        simp [is_geolocation_timeout, hpm]

/-- C10: the permission decision is independent of stored coordinates —
`check_user_permission` returns the same result on any two stored
states that agree after erasing latitude/longitude — and the
bounding-box test gates the location-update endpoint before anything is
written: coordinates outside the box leave the store unchanged
(`in_country` is never consulted at call-admission time). -/
theorem permission_independent_of_coordinates :
    (∀ (timeout now : Int) (dbx dby : Except DBErr DBData) (uid : String),
      exceptShape dbx = exceptShape dby →
      check_user_permission timeout now dbx uid = check_user_permission timeout now dby uid) ∧
    (∀ (b : Bounds) (now : Int) (d : DBData) (data : TimeLocationData),
      in_country b data.latitude data.longitude = false →
      (update_time_location_db b now d data).1 = d) := by
  constructor
  · intro timeout now dbx dby uid h
    cases dbx with
    | error e1 =>
      cases dby with
      | error e2 => cases e1; cases e2; rfl
      | ok d2 => exact absurd h (by simp [exceptShape])
    | ok d1 =>
      cases dby with
      | error e2 => exact absurd h (by simp [exceptShape])
      | ok d2 =>
        simp only [exceptShape, Except.ok.injEq] at h
        exact check_user_permission_shape_congr timeout now d1 d2 uid h
  · intro b now d data hin
    unfold update_time_location_db
    cases read_user_list d data.sessionToken with
    | none => rfl
    | some row => simp [hin]

/-- C10 witness: two stores identical except that the single sample's
coordinates are (10, 20) versus (99, 99) decide identically, and an
update reporting out-of-box coordinates (60, 60) against a (0..50,
0..50) box leaves the store untouched. -/
theorem permission_independent_of_coordinates_witness :
    check_user_permission 300 1000 (.ok db1) "acct-1" =
      check_user_permission 300 1000 (.ok db1b) "acct-1" ∧
    (update_time_location_db ⟨0, 50, 0, 50⟩ 1000 db1 ⟨"tok", "t1", 60, 60⟩).1 = db1 :=
  ⟨permission_independent_of_coordinates.1 300 1000 (.ok db1) (.ok db1b) "acct-1" rfl,
   permission_independent_of_coordinates.2 ⟨0, 50, 0, 50⟩ 1000 db1 ⟨"tok", "t1", 60, 60⟩ rfl⟩

end CallBlock
